import Mathlib

/-!
Verification development for the IndexedRedis fields subsystem
(`IndexedRedis/fields/__init__.py`, `fields/compressed.py`,
`fields/pickle_field.py`), embedding the Python code shallowly:

* Python runtime values are the inductive type `PyVal` (strings, bytes,
  ints, bools, the `IRNullType` null sentinel, and `None`).
* Python `==` / `!=` (including the `IRNullType.__eq__` / `__ne__`
  overrides and the reflected-operand priority that a subclass of `str`
  enjoys) are the boolean functions `pyEq` / `pyNe`.
* Fallible Python code (conversions that can raise) is embedded as
  `Except String PyVal`.
* The external modules the source calls (`zlib`, `bz2`, `hashlib.md5`,
  and the repository's `compat_str` helpers, which are not part of the
  sources under verification) are modelled explicitly below; `md5` is a
  full implementation, `zlib`/`bz2` are modelled by their interface
  contract (header-prefixed lossless compression).
-/

/-- A Python runtime value as used by the fields subsystem.
`null tag` is an instance of `IRNullType`; the `tag` records the
underlying `str` content of the instance (forced to `""` by
`IRNullType.__new__`, but kept as a parameter so that distinct
instances can be talked about). `pyNone` is Python's `None`. -/
inductive PyVal where
  | str (s : String)
  | bytes (b : List Nat)
  | int (i : Int)
  | bool (b : Bool)
  | null (tag : String)
  | pyNone
  deriving Repr, DecidableEq

/-- Test for `isinstance(x, IRNullType)`. -/
def isIRNull : PyVal → Bool
  | .null _ => true
  | _ => false

/-- Python `==` between the values of `PyVal`.

`IRNullType.__eq__(other) = isinstance(other, IRNullType)` (source
`fields/__init__.py` lines 208-209); since `IRNullType` is a proper
subclass of `str` that overrides `__eq__`, its method is also consulted
first (reflected) when an `IRNullType` instance is the right operand,
and it returns an actual boolean, so it decides the comparison.
Python's `True == 1` / `False == 0` numeric equality is included. -/
def pyEq (a b : PyVal) : Bool :=
  match a, b with
  | .null _, x => isIRNull x
  | x, .null _ => isIRNull x
  | .str s, .str t => s == t
  | .bytes s, .bytes t => s == t
  | .int i, .int j => i == j
  | .bool i, .bool j => i == j
  | .bool i, .int j => (if i then (1 : Int) else 0) == j
  | .int i, .bool j => i == (if j then (1 : Int) else 0)
  | .pyNone, .pyNone => true
  | _, _ => false

/-- Python `!=`. `IRNullType.__ne__(other) = not isinstance(other,
IRNullType)` (source lines 211-212); for the remaining values the
default negation of `==` applies. -/
def pyNe (a b : PyVal) : Bool :=
  match a, b with
  | .null _, x => !(isIRNull x)
  | x, .null _ => !(isIRNull x)
  | _, _ => !(pyEq a b)

/-- `IRNullType.__new__(val='')` ignores its argument and always builds
the instance on the empty string (source lines 202-206). -/
def IRNullType.new (_val : PyVal) : PyVal := .null ""

/-- The module-level singleton `irNull = IRNullType()`. -/
def irNull : PyVal := IRNullType.new (.str "")

/-- `IRNullType.__str__` always returns `''` (source lines 214-215). -/
def IRNullType.toStr (_tag : String) : String := ""

/-- UTF-8 encoding of one character (the default IR encoding used by
`compat_str.tobytes`). -/
def utf8EncodeCharBytes (c : Char) : List Nat :=
  let n := c.toNat
  if n < 0x80 then [n]
  else if n < 0x800 then [0xC0 + n / 64, 0x80 + n % 64]
  else if n < 0x10000 then
    [0xE0 + n / 4096, 0x80 + (n / 64) % 64, 0x80 + n % 64]
  else
    [0xF0 + n / 262144, 0x80 + (n / 4096) % 64, 0x80 + (n / 64) % 64, 0x80 + n % 64]

/-- UTF-8 encoding of a whole string as a byte list. -/
def utf8Encode (s : String) : List Nat :=
  (s.data.map utf8EncodeCharBytes).flatten

/-- UTF-8 decoding of a byte list (used by `compat_str.to_unicode` on a
`bytes` input; decoding failure raises `UnicodeDecodeError`). -/
def utf8Decode (l : List Nat) : Option (List Char) :=
  match l with
  | [] => some []
  | b :: rest =>
    if b < 0x80 then (utf8Decode rest).map (fun cs => Char.ofNat b :: cs)
    else if b < 0xC2 then none
    else if b < 0xE0 then
      match rest with
      | b2 :: r =>
        if 0x80 ≤ b2 && b2 < 0xC0 then
          (utf8Decode r).map (fun cs => Char.ofNat ((b - 0xC0) * 64 + (b2 - 0x80)) :: cs)
        else none
      | [] => none
    else if b < 0xF0 then
      match rest with
      | b2 :: b3 :: r =>
        if (0x80 ≤ b2 && b2 < 0xC0) && (0x80 ≤ b3 && b3 < 0xC0) then
          (utf8Decode r).map (fun cs =>
            Char.ofNat ((b - 0xE0) * 4096 + (b2 - 0x80) * 64 + (b3 - 0x80)) :: cs)
        else none
      | _ => none
    else if b < 0xF5 then
      match rest with
      | b2 :: b3 :: b4 :: r =>
        if ((0x80 ≤ b2 && b2 < 0xC0) && (0x80 ≤ b3 && b3 < 0xC0)) && (0x80 ≤ b4 && b4 < 0xC0) then
          (utf8Decode r).map (fun cs =>
            Char.ofNat ((b - 0xF0) * 262144 + (b2 - 0x80) * 4096 + (b3 - 0x80) * 64 + (b4 - 0x80)) :: cs)
        else none
      | _ => none
    else none
termination_by l.length
decreasing_by all_goals (simp [List.length]; try omega)

/-- Modelled from the spec: `compat_str.isStringy` (the module is not
among the sources under verification) — whether the value is a string
type; `IRNullType` instances are `str` subclass instances, so they
count. -/
def isStringy : PyVal → Bool
  | .str _ => true
  | .bytes _ => true
  | .null _ => true
  | _ => false

/-- Modelled from the spec: `compat_str.isEmptyString` — the value is
string-like and its content is empty (the spec's "designated empty
representation"; an `IRNullType` instance has underlying content `''`). -/
def isEmptyString : PyVal → Bool
  | .str s => s == ""
  | .bytes b => b == []
  | .null _ => true
  | _ => false

/-- Modelled from the spec: `compat_str.tobytes` — `bytes` pass
through, strings are encoded with the default IR encoding (UTF-8);
an `IRNullType` instance is a `str` instance with content `''`. -/
def tobytes : PyVal → Except String (List Nat)
  | .bytes b => .ok b
  | .str s => .ok (utf8Encode s)
  | .null _ => .ok []
  | _ => .error "TypeError: tobytes expects a string type"

/-- The decimal digit characters of a natural number, most significant
first (`Nat.digits` is little-endian, hence the reverse); empty for 0. -/
def natToDecimalChars (n : Nat) : List Char :=
  (Nat.digits 10 n).reverse.map (fun d => Char.ofNat (48 + d))

/-- Python `str(i)` for an integer: standard decimal notation with a
leading `-` for negatives. -/
def pyIntRepr (i : Int) : String :=
  match i with
  | .ofNat n => if n = 0 then "0" else String.mk (natToDecimalChars n)
  | .negSucc m => String.mk ('-' :: natToDecimalChars (m + 1))

/-- Python `str(x)` for the values of `PyVal` (`IRNullType.__str__`
returns `''`; ints print in decimal; bools print `True` / `False`). -/
def pyStrOf : PyVal → Except String String
  | .str s => .ok s
  | .null tag => .ok (IRNullType.toStr tag)
  | .int i => .ok (pyIntRepr i)
  | .bool b => .ok (if b then "True" else "False")
  | .pyNone => .ok "None"
  | .bytes _ => .error "str() of bytes not modelled"

/-- Modelled from the spec: `compat_str.to_unicode` — a `str` instance
is returned unchanged (so an `IRNullType` instance stays an
`IRNullType` instance), `bytes` are decoded with the default IR
encoding, anything else goes through `str()`. -/
def to_unicode : PyVal → Except String PyVal
  | .str s => .ok (.str s)
  | .null tag => .ok (.null tag)
  | .bytes b =>
    match utf8Decode b with
    | some cs => .ok (.str (String.mk cs))
    | none => .error "UnicodeDecodeError"
  | x => (pyStrOf x).map .str

/-- The numeric value of a decimal digit character, if it is one. -/
def decDigit? (c : Char) : Option Nat :=
  if 48 ≤ c.toNat ∧ c.toNat ≤ 57 then some (c.toNat - 48) else none

/-- Parse a list of characters as decimal digits, most significant
first. -/
def parseDigitList : List Char → Option (List Nat)
  | [] => some []
  | c :: cs => do
    let d ← decDigit? c
    let ds ← parseDigitList cs
    return d :: ds

/-- The value of a non-empty big-endian digit-character list. -/
def digitsVal (cs : List Char) : Option Nat :=
  if cs.isEmpty then none
  else (parseDigitList cs).map (fun ds => Nat.ofDigits 10 ds.reverse)

/-- Python `int(s)` on a string: an optional sign followed by a
non-empty run of decimal digits; anything else raises `ValueError`
(whitespace trimming and underscore separators are not modelled). -/
def pyIntParse (s : String) : Option Int :=
  match s.data with
  | [] => none
  | c :: cs =>
    if c = '-' then (digitsVal cs).map (fun n => -(n : Int))
    else if c = '+' then (digitsVal cs).map (fun n => (n : Int))
    else (digitsVal (c :: cs)).map (fun n => (n : Int))

/-- Python `int(value)` as used by `IRField.convert` when
`valueType == int`: strings (and string subclasses) are parsed as
decimal, ints pass through, bools become 0/1, bytes are decoded and
parsed, anything else is a `TypeError`. -/
def pyIntCast : PyVal → Except String PyVal
  | .str s =>
    match pyIntParse s with
    | some i => .ok (.int i)
    | none => .error "ValueError: invalid literal for int()"
  | .null tag =>
    match pyIntParse tag with
    | some i => .ok (.int i)
    | none => .error "ValueError: invalid literal for int()"
  | .int i => .ok (.int i)
  | .bool b => .ok (.int (if b then 1 else 0))
  | .bytes b =>
    match utf8Decode b with
    | some cs =>
      match pyIntParse (String.mk cs) with
      | some i => .ok (.int i)
      | none => .error "ValueError: invalid literal for int()"
    | none => .error "ValueError: invalid literal for int()"
  | .pyNone => .error "TypeError: int() argument"

/-- The declared `valueType` of an `IRField`, restricted to the basic
types the claims are about. -/
inductive PyType where
  | tStr | tBytes | tNone | tInt | tBool | tFloat
  deriving Repr, DecidableEq

/-- The state of an `IRField` instance after `__init__`: its name, the
normalized `valueType`, the `hashIndex` flag, and the instance-level
`CAN_INDEX` value. -/
structure IRFieldData where
  name : String
  valueType : PyType
  hashIndex : Bool
  CAN_INDEX : Bool
  deriving Repr, DecidableEq

/-- `IRField.__init__(name, valueType, hashIndex)` (source lines
74-100): `bytes` and `None` valueTypes clear the instance `CAN_INDEX`;
after the dispatch, a valueType whose class `CAN_INDEX` is `False`
clears it (no basic type carries that attribute), and `float` clears
it; every other basic type leaves the class default `True`. -/
def IRField.init (name : String) (valueType : PyType) (hashIndex : Bool) : IRFieldData :=
  let canIndex :=
    match valueType with
    | .tBytes => false
    | .tNone => false
    | .tFloat => false
    | _ => true
  { name := name, valueType := valueType, hashIndex := hashIndex, CAN_INDEX := canIndex }

/-- `IRField._isNullValue(value) = bool(value in (b'', '', irNull))`
(source lines 179-186), spelled out through Python `==` on the three
tuple members. -/
def IRField._isNullValue (value : PyVal) : Bool :=
  pyEq (.bytes []) value || pyEq (.str "") value || pyEq irNull value

/-- Python `value.lower()` (ASCII case mapping, which covers every
input the boolean conversion recognises). -/
def pyLower (s : String) : String := String.mk (s.data.map Char.toLower)

/-- `IRField._convertBool` (source lines 166-176): null-ish values give
`irNull`; otherwise `value.lower()` is compared against
`('true', '1')` and `('false', '0')`; any other value raises (a
non-empty `bytes` never equals those `str` literals, and a non-string
has no `lower`). -/
def IRField._convertBool (value : PyVal) : Except String PyVal :=
  if IRField._isNullValue value then .ok irNull
  else
    match value with
    | .str s =>
      let x := pyLower s
      if x == "true" || x == "1" then .ok (.bool true)
      else if x == "false" || x == "0" then .ok (.bool false)
      else .error "ValueError: Unexpected value for bool type"
    | .bytes _ => .error "ValueError: Unexpected value for bool type"
    | _ => .error "AttributeError: object has no attribute lower"

/-- `IRField.convert` as dispatched by `__init__`: `str` uses
`_convertStr = to_unicode`, `bytes` uses `_convertBytes = tobytes`,
`None` uses `_noConvert`, `bool` uses `_convertBool`, and the remaining
types use the generic body (source lines 113-121): null-ish storage
values give `irNull`, anything else goes through `valueType(value)`.
The `float` cast is left unmodelled (floating point). -/
def IRField.convert (f : IRFieldData) (value : PyVal) : Except String PyVal :=
  match f.valueType with
  | .tStr => to_unicode value
  | .tBytes => (tobytes value).map .bytes
  | .tNone => .ok value
  | .tBool => IRField._convertBool value
  | .tInt =>
    if IRField._isNullValue value then .ok irNull
    else pyIntCast value
  | .tFloat =>
    if IRField._isNullValue value then .ok irNull
    else .error "float(value) not modelled"

/-- `IRField.toStorage(value) = to_unicode(value)` (source lines
102-111), except that a `None` valueType replaces it with
`_noConvert` (source line 83). -/
def IRField.toStorage (f : IRFieldData) (v : PyVal) : Except String PyVal :=
  match f.valueType with
  | .tNone => .ok v
  | _ => to_unicode v

/-- 2^32, the word modulus of md5. -/
def m32 : Nat := 4294967296

/-- Bitwise complement in 32 bits. -/
def notw (x : Nat) : Nat := 4294967295 - x % m32

/-- Left rotation of a 32-bit word. -/
def rotl32 (x s : Nat) : Nat := ((x % m32) <<< s ||| (x % m32) >>> (32 - s)) % m32

/-- The 64 per-round left-rotation amounts of md5 (RFC 1321). -/
def md5shifts : List Nat :=
  [7, 12, 17, 22, 7, 12, 17, 22, 7, 12, 17, 22, 7, 12, 17, 22,
   5, 9, 14, 20, 5, 9, 14, 20, 5, 9, 14, 20, 5, 9, 14, 20,
   4, 11, 16, 23, 4, 11, 16, 23, 4, 11, 16, 23, 4, 11, 16, 23,
   6, 10, 15, 21, 6, 10, 15, 21, 6, 10, 15, 21, 6, 10, 15, 21]

/-- The 64 sine-derived additive constants of md5 (RFC 1321). -/
def md5K : List Nat :=
  [0xd76aa478, 0xe8c7b756, 0x242070db, 0xc1bdceee,
   0xf57c0faf, 0x4787c62a, 0xa8304613, 0xfd469501,
   0x698098d8, 0x8b44f7af, 0xffff5bb1, 0x895cd7be,
   0x6b901122, 0xfd987193, 0xa679438e, 0x49b40821,
   0xf61e2562, 0xc040b340, 0x265e5a51, 0xe9b6c7aa,
   0xd62f105d, 0x02441453, 0xd8a1e681, 0xe7d3fbc8,
   0x21e1cde6, 0xc33707d6, 0xf4d50d87, 0x455a14ed,
   0xa9e3e905, 0xfcefa3f8, 0x676f02d9, 0x8d2a4c8a,
   0xfffa3942, 0x8771f681, 0x6d9d6122, 0xfde5380c,
   0xa4beea44, 0x4bdecfa9, 0xf6bb4b60, 0xbebfbc70,
   0x289b7ec6, 0xeaa127fa, 0xd4ef3085, 0x04881d05,
   0xd9d4d039, 0xe6db99e5, 0x1fa27cf8, 0xc4ac5665,
   0xf4292244, 0x432aff97, 0xab9423a7, 0xfc93a039,
   0x655b59c3, 0x8f0ccc92, 0xffeff47d, 0x85845dd1,
   0x6fa87e4f, 0xfe2ce6e0, 0xa3014314, 0x4e0811a1,
   0xf7537e82, 0xbd3af235, 0x2ad7d2bb, 0xeb86d391]

/-- Group a byte list into little-endian 32-bit words. -/
def bytesToWordsLE : List Nat → List Nat
  | b0 :: b1 :: b2 :: b3 :: rest =>
    (b0 + 256 * b1 + 65536 * b2 + 16777216 * b3) :: bytesToWordsLE rest
  | _ => []

/-- md5 padding: a 0x80 byte, zeros up to 56 mod 64, then the original
bit length as a 64-bit little-endian number. -/
def md5pad (msg : List Nat) : List Nat :=
  let len := msg.length
  let zeros := (56 + 64 - (len + 1) % 64) % 64
  let bits := (len * 8) % (2 ^ 64)
  msg ++ [0x80] ++ List.replicate zeros 0 ++
    ((List.range 8).map (fun i => (bits >>> (8 * i)) % 256))

/-- One 512-bit md5 chunk applied to the running state. -/
def md5processChunk (h : Nat × Nat × Nat × Nat) (chunk : List Nat) : Nat × Nat × Nat × Nat :=
  let M := bytesToWordsLE chunk
  let w := fun j => M.getD j 0
  let res := (List.range 64).foldl
    (fun (st : Nat × Nat × Nat × Nat) i =>
      let (A, B, C, D) := st
      let fg : Nat × Nat :=
        if i < 16 then ((B &&& C) ||| (notw B &&& D), i)
        else if i < 32 then ((D &&& B) ||| (notw D &&& C), (5 * i + 1) % 16)
        else if i < 48 then (B ^^^ C ^^^ D, (3 * i + 5) % 16)
        else (C ^^^ (B ||| notw D), (7 * i) % 16)
      let fv := (fg.1 + A + md5K.getD i 0 + w fg.2) % m32
      (D, (B + rotl32 fv (md5shifts.getD i 0)) % m32, B, C)) h
  ((h.1 + res.1) % m32, (h.2.1 + res.2.1) % m32,
   (h.2.2.1 + res.2.2.1) % m32, (h.2.2.2 + res.2.2.2) % m32)

/-- Fold `md5processChunk` over successive 64-byte chunks. -/
def md5chunksGo (h : Nat × Nat × Nat × Nat) (l : List Nat) : Nat × Nat × Nat × Nat :=
  if hl : l = [] then h
  else md5chunksGo (md5processChunk h (l.take 64)) (l.drop 64)
termination_by l.length
decreasing_by
  simp only [List.length_drop]
  cases l with
  | nil => exact absurd rfl hl
  | cons a t => simp; omega

/-- Lowercase hexadecimal digit character. -/
def hexDigitChar (n : Nat) : Char := Char.ofNat (if n < 10 then 48 + n else 87 + n)

/-- Two lowercase hex characters of a byte. -/
def byteToHex (b : Nat) : List Char := [hexDigitChar (b / 16), hexDigitChar (b % 16)]

/-- The four little-endian bytes of a 32-bit word. -/
def wordBytesLE (x : Nat) : List Nat :=
  [x % 256, (x >>> 8) % 256, (x >>> 16) % 256, (x >>> 24) % 256]

/-- `hashlib.md5(msg).hexdigest()`: the full md5 of a byte list as a
32-character lowercase hex string. -/
def md5hexdigest (msg : List Nat) : String :=
  let st := md5chunksGo (0x67452301, 0xefcdab89, 0x98badcfe, 0x10325476) (md5pad msg)
  String.mk
    (((wordBytesLE st.1 ++ wordBytesLE st.2.1 ++ wordBytesLE st.2.2.1 ++
       wordBytesLE st.2.2.2).map byteToHex).flatten)

/-- `IRField.isIndexHashed = bool(self.hashIndex)` (source lines
136-143). -/
def IRField.isIndexHashed (f : IRFieldData) : Bool := f.hashIndex

/-- `IRField.toIndex(value)` (source lines 123-134): `toStorage` first;
when `isIndexHashed` the md5 hex digest of its bytes, otherwise the
storage value itself. -/
def IRField.toIndex (f : IRFieldData) (value : PyVal) : Except String PyVal := do
  let ret ← IRField.toStorage f value
  if IRField.isIndexHashed f = false then return ret
  let bs ← tobytes ret
  return .str (md5hexdigest bs)

/-- The two compression modes of `fields/compressed.py` after alias
normalization. -/
inductive CompressMode where
  | zlib | bz2
  deriving Repr, DecidableEq

/-- The magic header bytes chosen in `IRCompressedField.__init__`:
`b'x\xda'` for zlib, `b'BZh9'` for bz2 (source lines 71-76). -/
def modeHeader : CompressMode → List Nat
  | .zlib => [0x78, 0xDA]
  | .bz2 => [0x42, 0x5A, 0x68, 0x39]

/-- Model of the external `zlib.compress(data, 9)` /
`bz2.compress(data, 9)` calls, by their interface contract: the output
is the mode's fixed magic header followed by an encoding of the
payload, and `decompressModel` inverts `compressModel`. (Only these
contract properties of the real compressors are used: level-9 zlib
output starts with `b'x\xda'`, bz2 output with `b'BZh9'`, and
decompression of a compressed stream returns the original payload.) -/
def compressModel (m : CompressMode) (data : List Nat) : List Nat :=
  modeHeader m ++ data

/-- Model of the external `zlib.decompress` / `bz2.decompress` on
well-formed compressed streams; inverse of `compressModel`. -/
def decompressModel (m : CompressMode) (data : List Nat) : List Nat :=
  data.drop (modeHeader m).length

/-- The state of an `IRCompressedField` instance after `__init__`. -/
structure IRCompressedFieldData where
  name : String
  compressMode : CompressMode
  deriving Repr, DecidableEq

/-- The `header` attribute set in `__init__`. -/
def IRCompressedField.header (f : IRCompressedFieldData) : List Nat :=
  modeHeader f.compressMode

/-- `IRCompressedField.__init__(name, compressMode)` (source lines
51-78): `"zlib"`, `"gzip"`, `"gz"` select zlib; `"bz2"`, `"bzip2"`
select bz2; anything else raises `ValueError`. -/
def IRCompressedField.init (name : String) (compressMode : String) :
    Except String IRCompressedFieldData :=
  if compressMode == "zlib" || compressMode == "gzip" || compressMode == "gz" then
    .ok { name := name, compressMode := .zlib }
  else if compressMode == "bz2" || compressMode == "bzip2" then
    .ok { name := name, compressMode := .bz2 }
  else .error "ValueError: Invalid compressMode"

/-- The class attribute `IRCompressedField.CAN_INDEX = True` (source
line 47). -/
def IRCompressedField.CAN_INDEX : Bool := true

/-- The class attribute `IRCompressedField.hashIndex = True` (source
line 48): the index of a compressed field is always hashed. -/
def IRCompressedField.hashIndex : Bool := true

/-- The class attribute `IRPickleField.CAN_INDEX = False`
(`fields/pickle_field.py` line 27). -/
def IRPickleField.CAN_INDEX : Bool := false

/-- Python slicing `value[:n]` on a string-like value (slicing an
`IRNullType` instance yields a plain `str` of its content). -/
def pyValTake (v : PyVal) (n : Nat) : PyVal :=
  match v with
  | .str s => .str (String.mk (s.data.take n))
  | .bytes b => .bytes (b.take n)
  | .null tag => .str (String.mk (tag.data.take n))
  | x => x

/-- `IRCompressedField._toStorage` (source lines 92-108): empty
string-like input gives `''`; then the value must convert to bytes;
an input whose sliced prefix encodes to the mode's magic header is
returned unchanged; everything else is compressed at level 9. -/
def IRCompressedField._toStorage (f : IRCompressedFieldData) (value : PyVal) :
    Except String PyVal :=
  if isEmptyString value then .ok (.str "")
  else
    match tobytes value with
    | .error _ => .error "ValueError: Failed to convert value to bytes"
    | .ok valueBytes =>
      match tobytes (pyValTake value (IRCompressedField.header f).length) with
      | .ok pre =>
        if pre == IRCompressedField.header f then .ok value
        else .ok (.bytes (compressModel f.compressMode valueBytes))
      | .error _ => .error "ValueError: Failed to convert value to bytes"

/-- `IRCompressedField._fromStorage` (source lines 110-119): empty
string-like input gives `''`; a string-like input whose sliced prefix
encodes to the magic header is decompressed (the decompressor itself
accepts only `bytes`); every other input is returned unchanged. -/
def IRCompressedField._fromStorage (f : IRCompressedFieldData) (value : PyVal) :
    Except String PyVal :=
  if isEmptyString value then .ok (.str "")
  else if isStringy value then
    match tobytes (pyValTake value (IRCompressedField.header f).length) with
    | .ok pre =>
      if pre == IRCompressedField.header f then
        match value with
        | .bytes b => .ok (.bytes (decompressModel f.compressMode b))
        | _ => .error "TypeError: a bytes-like object is required"
      else .ok value
    | .error _ => .ok value
  else .ok value

/-- Modelled from the spec: the linked target record of a foreign-link
field (the model/record classes are not among the sources under
verification) — a primary key, assigned at first save, and one scalar
field. -/
structure RefObjState where
  pk : Option Nat
  intVal : Int
  deriving Repr, DecidableEq

/-- Modelled from the spec: a `ForeignLinkHandle` — "exactly one of
{id-only, resolved-object} is authoritative at a time; a `fetched`
flag records whether resolution has occurred". -/
structure ForeignLinkHandle where
  pk : Option Nat
  cachedObj : Option RefObjState
  fetched : Bool
  deriving Repr, DecidableEq

/-- `isFetched()` "reports state without forcing resolution". -/
def ForeignLinkHandle.isFetched (h : ForeignLinkHandle) : Bool := h.fetched

/-- A reported field value: either a scalar or a link handle. -/
inductive FieldVal where
  | s (v : String)
  | link (h : ForeignLinkHandle)
  deriving Repr, DecidableEq

/-- Modelled from the spec: an `ObjectRecord` holding one scalar field
and one foreign-link field, with the baseline snapshot kept for dirty
diffing. -/
structure MainRecordState where
  name : String
  baselineName : String
  other : ForeignLinkHandle
  baselineOther : ForeignLinkHandle
  deriving Repr, DecidableEq

/-- Modelled from the spec: `getUpdatedFields()` — "returns
fieldName→(baselineValue, currentValue) for every field whose current
value differs from baseline under value-level equality ... never force
resolution of an unresolved ForeignLinkHandle — link comparison uses
the id only"; the record state comes back unchanged (the operation is
side-effect-free). -/
def getUpdatedFields (r : MainRecordState) :
    List (String × FieldVal × FieldVal) × MainRecordState :=
  let nameDiff :=
    if r.name == r.baselineName then []
    else [("name", FieldVal.s r.baselineName, FieldVal.s r.name)]
  let linkDiff :=
    if r.other.pk == r.baselineOther.pk then []
    else [("other", FieldVal.link r.baselineOther, FieldVal.link r.other)]
  (nameDiff ++ linkDiff, r)

/-- Modelled from the spec: the slice of the backing store a holder
record and its link target live in. -/
structure StoreState where
  targetIntVal : Nat → Option Int
  holderName : String
  holderOtherId : Option Nat

/-- Modelled from the spec: a holder record as `reload` sees it (current
values only; reload reports against the pre-reload values). -/
structure HolderState where
  name : String
  other : ForeignLinkHandle
  deriving Repr, DecidableEq

/-- Modelled from the spec: re-fetching a resolved link target's own
stored fields during a cascading reload. -/
def reloadTargetFromStore (st : StoreState) (o : RefObjState) : RefObjState :=
  match o.pk with
  | some k => { o with intVal := (st.targetIntVal k).getD o.intVal }
  | none => o

/-- Modelled from the spec: `reload(cascadeObjects)` — "re-fetches the
holder's own stored fields and reports only fields whose reloaded value
differs from its pre-reload value. For link fields: with
`cascadeObjects=false`, only the link id is compared — a changed id is
reported even though any cached resolved object is left stale; nested
mutations not changing the id are invisible. With `cascadeObjects=true`,
any already-resolved linked target is itself reloaded recursively, and
the link is reported changed if its id changed OR the nested reload
detected changes; an unresolved link remains unresolved after reload
regardless of `cascadeObjects` — reload never performs initial
resolution, only refreshes what is already resolved." -/
def reloadHolder (cascadeObjects : Bool) (st : StoreState) (h : HolderState) :
    List (String × FieldVal × FieldVal) × HolderState :=
  let newName := st.holderName
  let nameDiff :=
    if newName == h.name then []
    else [("name", FieldVal.s h.name, FieldVal.s newName)]
  let newId := st.holderOtherId
  if h.other.pk ≠ newId then
    let newHandle : ForeignLinkHandle :=
      { pk := newId, cachedObj := h.other.cachedObj, fetched := h.other.fetched }
    (nameDiff ++ [("other", FieldVal.link h.other, FieldVal.link newHandle)],
     { name := newName, other := newHandle })
  else if cascadeObjects then
    match h.other.fetched, h.other.cachedObj with
    | true, some o =>
      let o' := reloadTargetFromStore st o
      if o' == o then (nameDiff, { name := newName, other := h.other })
      else
        let newHandle : ForeignLinkHandle := { h.other with cachedObj := some o' }
        (nameDiff ++ [("other", FieldVal.link h.other, FieldVal.link newHandle)],
         { name := newName, other := newHandle })
    | _, _ => (nameDiff, { name := newName, other := h.other })
  else (nameDiff, { name := newName, other := h.other })

/-- A concrete store for exercising the reload contract: the link
target's scalar was changed to 5 in the store, the holder's stored link
id is 1. -/
def sampleStore : StoreState :=
  { targetIntVal := fun _ => some 5, holderName := "one", holderOtherId := some 1 }

/-- A resolved link handle caching the stale target (id 1, scalar 99). -/
def sampleResolvedHandle : ForeignLinkHandle :=
  { pk := some 1, cachedObj := some { pk := some 1, intVal := 99 }, fetched := true }

/-- The handle after a cascading reload refreshed the cached target. -/
def sampleReloadedHandle : ForeignLinkHandle :=
  { pk := some 1, cachedObj := some { pk := some 1, intVal := 5 }, fetched := true }

/-- A holder whose link is resolved (and stale). -/
def sampleResolvedHolder : HolderState := { name := "one", other := sampleResolvedHandle }

/-- A holder whose link was never resolved. -/
def sampleUnresolvedHolder : HolderState :=
  { name := "one", other := { pk := some 2, cachedObj := none, fetched := false } }

/-- The bytes `b'\x01Hello World\x01'` from the spec's compressed-field
example. -/
def helloWorldBytes : List Nat :=
  [0x01, 0x48, 0x65, 0x6C, 0x6C, 0x6F, 0x20, 0x57, 0x6F, 0x72, 0x6C, 0x64, 0x01]

deriving instance DecidableEq for Except

/-- The storage round trip of an `IRField`: `convert(toStorage(v))`
(the spec's `fromStorage(toStorage(v))`). -/
def storageRoundTrip (f : IRFieldData) (v : PyVal) : Except String PyVal :=
  (IRField.toStorage f v).bind (IRField.convert f)

/-- The storage round trip of an `IRCompressedField`:
`_fromStorage(_toStorage(v))`. -/
def compressedRoundTrip (f : IRCompressedFieldData) (v : PyVal) : Except String PyVal :=
  (IRCompressedField._toStorage f v).bind (IRCompressedField._fromStorage f)

/-- C3: `NullSentinel` equality — `irNull == irNull` and
`IRNullType() == IRNullType()` are true; `irNull == ''` and
`irNull == False` are false; `irNull == x` holds exactly when `x` is an
`IRNullType` instance; `irNull != x` is the exact negation of
`irNull == x`. -/
theorem claim_C3_nullSentinelEquality (x : PyVal) :
    pyEq irNull irNull = true ∧
    pyEq (IRNullType.new (.str "")) (IRNullType.new (.str "")) = true ∧
    pyEq irNull (.str "") = false ∧
    pyEq irNull (.bool false) = false ∧
    pyEq irNull x = isIRNull x ∧
    pyNe irNull x = !(pyEq irNull x) := by
  cases x <;> exact ⟨rfl, rfl, rfl, rfl, rfl, rfl⟩

/-- C10: the `IRNullType` constructor discards its argument and always
builds on content `''`; every `IRNullType` instance equals `irNull` and
every other instance under `==` (and is not unequal under `!=`), and
`str()` of any instance is `''` — the null singleton is a singleton
only up to equality. -/
theorem claim_C10_nullConstructorDiscardsArgument (v : PyVal) (t u : String) :
    IRNullType.new v = .null "" ∧
    pyEq irNull (IRNullType.new v) = true ∧
    pyEq (.null t) (.null u) = true ∧
    pyNe (.null t) (.null u) = false ∧
    IRNullType.toStr t = "" := by
  exact ⟨rfl, rfl, rfl, rfl, rfl⟩

/-- C7: indexability flags — an `IRField` constructed with valueType
`float` has `CAN_INDEX` false; `IRPickleField.CAN_INDEX` is false; an
`IRCompressedField` has `CAN_INDEX` true together with `hashIndex`
true (its index is mandatory-hashed). -/
theorem claim_C7_indexabilityFlags (nm : String) (hi : Bool) :
    (IRField.init nm .tFloat hi).CAN_INDEX = false ∧
    IRPickleField.CAN_INDEX = false ∧
    IRCompressedField.CAN_INDEX = true ∧
    IRCompressedField.hashIndex = true := by
  exact ⟨rfl, rfl, rfl, rfl⟩

/-- C8: `getUpdatedFields()` never forces resolution of an unresolved
link — the record state (in particular the handle's `isFetched`) is the
same before and after the call, repeated calls are idempotent and
side-effect-free, and the link field appears in the diff exactly when
its id differs from the baseline id (link comparison uses the id
only). -/
theorem claim_C8_getUpdatedFieldsNoResolution (r : MainRecordState) :
    (getUpdatedFields r).2 = r ∧
    ((getUpdatedFields r).2).other.isFetched = r.other.isFetched ∧
    (getUpdatedFields ((getUpdatedFields r).2)).1 = (getUpdatedFields r).1 ∧
    (((getUpdatedFields r).1).map Prod.fst).contains "other"
      = !(r.other.pk == r.baselineOther.pk) := by
  refine ⟨rfl, rfl, rfl, ?_⟩
  unfold getUpdatedFields
  by_cases h1 : r.name == r.baselineName <;>
    by_cases h2 : r.other.pk == r.baselineOther.pk <;>
      simp_all [List.contains]

theorem decDigit_ofDigitChar (d : Nat) (hd : d < 10) :
    decDigit? (Char.ofNat (48 + d)) = some d := by
  interval_cases d <;> rfl

theorem digitChar_not_sign (d : Nat) (hd : d < 10) :
    Char.ofNat (48 + d) ≠ '-' ∧ Char.ofNat (48 + d) ≠ '+' := by
  interval_cases d <;> exact ⟨by decide, by decide⟩

theorem parseDigitList_map (ds : List Nat) (h : ∀ d ∈ ds, d < 10) :
    parseDigitList (ds.map (fun d => Char.ofNat (48 + d))) = some ds := by
  induction ds with
  | nil => rfl
  | cons d t ih =>
    simp only [List.map_cons, parseDigitList]
    rw [decDigit_ofDigitChar d (h d (List.mem_cons_self d t)),
        ih (fun x hx => h x (List.mem_cons_of_mem d hx))]
    rfl

theorem digitsVal_map (ds : List Nat) (hne : ds ≠ []) (h : ∀ d ∈ ds, d < 10) :
    digitsVal (ds.map (fun d => Char.ofNat (48 + d))) = some (Nat.ofDigits 10 ds.reverse) := by
  unfold digitsVal
  rw [if_neg (by simpa using hne), parseDigitList_map ds h]
  rfl

theorem digitsVal_natToDecimalChars (n : Nat) (hn : n ≠ 0) :
    digitsVal (natToDecimalChars n) = some n := by
  unfold natToDecimalChars
  rw [digitsVal_map _ (by simpa using Nat.digits_ne_nil_iff_ne_zero.mpr hn)
      (fun d hd => Nat.digits_lt_base (by norm_num) (List.mem_reverse.mp hd))]
  rw [List.reverse_reverse, Nat.ofDigits_digits]

theorem pyIntParse_pyIntRepr (i : Int) : pyIntParse (pyIntRepr i) = some i := by
  cases i with
  | ofNat n =>
    by_cases hn : n = 0
    · subst hn; rfl
    · show pyIntParse (pyIntRepr (Int.ofNat n)) = some (Int.ofNat n)
      have hrepr : pyIntRepr (Int.ofNat n) = String.mk (natToDecimalChars n) := by
        simp [pyIntRepr, hn]
      rw [hrepr]
      have hne : Nat.digits 10 n ≠ [] := Nat.digits_ne_nil_iff_ne_zero.mpr hn
      have hlt : ∀ d ∈ (Nat.digits 10 n).reverse, d < 10 :=
        fun d hd => Nat.digits_lt_base (by norm_num) (List.mem_reverse.mp hd)
      unfold pyIntParse natToDecimalChars
      cases hds : (Nat.digits 10 n).reverse with
      | nil => exact absurd (by simpa using hds) hne
      | cons d t =>
        have hd10 : d < 10 := hlt d (by rw [hds]; exact List.mem_cons_self d t)
        have hall : ∀ x ∈ d :: t, x < 10 := by rw [← hds]; exact hlt
        simp only [List.map_cons, String.data]
        rw [if_neg (digitChar_not_sign d hd10).1, if_neg (digitChar_not_sign d hd10).2]
        have := digitsVal_map (d :: t) (by simp) hall
        simp only [List.map_cons] at this
        rw [this]
        have h2 : Nat.ofDigits 10 (t.reverse ++ [d]) = n := by
          rw [← List.reverse_cons, ← hds, List.reverse_reverse, Nat.ofDigits_digits]
        simp [h2]
  | negSucc m =>
    show pyIntParse (pyIntRepr (Int.negSucc m)) = some (Int.negSucc m)
    simp only [pyIntRepr, pyIntParse, String.data]
    rw [digitsVal_natToDecimalChars (m + 1) (Nat.succ_ne_zero m)]
    simp [Int.negSucc_eq]

theorem pyIntRepr_ne_empty (i : Int) : pyIntRepr i ≠ "" := by
  cases i with
  | ofNat n =>
    by_cases hn : n = 0
    · subst hn; simp [pyIntRepr]
    · have hne : natToDecimalChars n ≠ [] := by
        unfold natToDecimalChars
        simpa using Nat.digits_ne_nil_iff_ne_zero.mpr hn
      simp only [pyIntRepr, if_neg hn]
      intro h
      exact hne (by simpa [String.ext_iff] using h)
  | negSucc m =>
    intro h
    simp [pyIntRepr, String.ext_iff] at h

theorem isNullValue_str (s : String) : IRField._isNullValue (.str s) = ("" == s) := by
  show (pyEq (.bytes []) (.str s) || pyEq (.str "") (.str s) || pyEq irNull (.str s))
      = ("" == s)
  simp [pyEq, irNull, IRNullType.new, isIRNull]

theorem isNullValue_bytes (b : List Nat) :
    IRField._isNullValue (.bytes b) = (([] : List Nat) == b) := by
  show (pyEq (.bytes []) (.bytes b) || pyEq (.str "") (.bytes b) || pyEq irNull (.bytes b))
      = (([] : List Nat) == b)
  simp [pyEq, irNull, IRNullType.new, isIRNull]

theorem modeHeader_ne_nil (m : CompressMode) : modeHeader m ≠ [] := by
  cases m <;> simp [modeHeader]

theorem convertBool_TrueLit : IRField._convertBool (.str "True") = .ok (.bool true) := by
  decide

theorem convertBool_FalseLit : IRField._convertBool (.str "False") = .ok (.bool false) := by
  decide

/-- C1 (amended): `fromStorage(toStorage(v)) == v` exactly, for every
value of the declared type, for `IRField` with valueType `str`, `int`
and `bool`; for `IRCompressedField` the round trip restores every
non-empty bytes value that does NOT already begin with the compression
mode's magic header (a header-bearing value is passed through by
`_toStorage` and then decompressed by `_fromStorage`, so it is not
restored — see the counterexample — and the empty bytes value comes
back as the empty `str`). -/
theorem claim_C1_roundTripAmended (nm : String) (hi : Bool) (s : String) (i : Int) (b : Bool)
    (cf : IRCompressedFieldData) (v : List Nat) :
    storageRoundTrip (IRField.init nm .tStr hi) (.str s) = .ok (.str s) ∧
    storageRoundTrip (IRField.init nm .tInt hi) (.int i) = .ok (.int i) ∧
    storageRoundTrip (IRField.init nm .tBool hi) (.bool b) = .ok (.bool b) ∧
    (v ≠ [] → v.take (IRCompressedField.header cf).length ≠ IRCompressedField.header cf →
      compressedRoundTrip cf (.bytes v) = .ok (.bytes v)) ∧
    compressedRoundTrip cf (.bytes []) = .ok (.str "") := by
  refine ⟨rfl, ?_, ?_, ?_, rfl⟩
  · have h2 : IRField._isNullValue (.str (pyIntRepr i)) = false := by
      rw [isNullValue_str]
      exact beq_eq_false_iff_ne.mpr (fun h => pyIntRepr_ne_empty i h.symm)
    simp [storageRoundTrip, IRField.toStorage, IRField.convert, to_unicode, pyStrOf,
      IRField.init, h2, pyIntCast, pyIntParse_pyIntRepr i, Except.map, Except.bind]
  · cases b <;>
      simp [storageRoundTrip, IRField.toStorage, IRField.convert, IRField.init, to_unicode,
        pyStrOf, Except.bind, Except.map, convertBool_TrueLit, convertBool_FalseLit]
  · intro hv hh
    have hts : IRCompressedField._toStorage cf (.bytes v)
        = .ok (.bytes (modeHeader cf.compressMode ++ v)) := by
      simp [IRCompressedField._toStorage, isEmptyString, hv, tobytes, pyValTake,
        IRCompressedField.header, compressModel]
      intro hcontra
      exact absurd hcontra hh
    have hfs : IRCompressedField._fromStorage cf (.bytes (modeHeader cf.compressMode ++ v))
        = .ok (.bytes v) := by
      simp [IRCompressedField._fromStorage, isEmptyString, isStringy, pyValTake, tobytes,
        IRCompressedField.header, List.take_left, List.drop_left, decompressModel,
        modeHeader_ne_nil cf.compressMode]
    simp [compressedRoundTrip, hts, hfs, Except.bind]

/-- C1 counterexample: for `IRCompressedField` under zlib mode, the
round trip does NOT restore a bytes value that already begins with the
magic header `b'x\xda'`: the compressed stream `zlib.compress(b'')`
(whose payload is empty) is passed through unchanged by `_toStorage`
and then decompressed by `_fromStorage`, giving back `b''` instead of
the stored value, so `_fromStorage(_toStorage(v)) ≠ v`. -/
theorem claim_C1_roundTripCounterexample :
    compressedRoundTrip { name := "value", compressMode := CompressMode.zlib }
        (.bytes (compressModel CompressMode.zlib []))
      = .ok (.bytes []) ∧
    PyVal.bytes (compressModel CompressMode.zlib []) ≠ PyVal.bytes [] := by
  exact ⟨by decide, by decide⟩

/-- C1 witness: the amended round trip evaluated at concrete inputs
(the non-header bytes `[1, 2, 3]` under zlib mode, and the integer
`-37`). -/
theorem claim_C1_roundTripAmended_witness :
    compressedRoundTrip { name := "value", compressMode := CompressMode.zlib }
        (.bytes [1, 2, 3]) = .ok (.bytes [1, 2, 3]) ∧
    storageRoundTrip (IRField.init "n" .tInt false) (.int (-37)) = .ok (.int (-37)) :=
  ⟨(claim_C1_roundTripAmended "n" false "" (-37) true
      { name := "value", compressMode := CompressMode.zlib } [1, 2, 3]).2.2.2.1
      (by decide) (by decide),
   (claim_C1_roundTripAmended "n" false "" (-37) true
      { name := "value", compressMode := CompressMode.zlib } [1, 2, 3]).2.1⟩

/-- C2: the `IRCompressedField` conversion contract — empty input maps
to the empty string in both directions; the magic headers are
`b'x\xda'` (zlib) and `b'BZh9'` (bz2); a non-empty bytes input not
bearing the mode's header is compressed (at the fixed maximum level 9)
by `_toStorage`, while a header-bearing input is returned unchanged;
`_fromStorage` decompresses exactly the string-like inputs bearing the
header and returns every other input (non-header bytes and strings,
non-string values) unchanged. -/
theorem claim_C2_compressedContract (cf : IRCompressedFieldData) (v : List Nat) (s : String)
    (i : Int) :
    IRCompressedField._toStorage cf (.bytes []) = .ok (.str "") ∧
    IRCompressedField._toStorage cf (.str "") = .ok (.str "") ∧
    IRCompressedField._fromStorage cf (.bytes []) = .ok (.str "") ∧
    IRCompressedField._fromStorage cf (.str "") = .ok (.str "") ∧
    modeHeader .zlib = [0x78, 0xDA] ∧
    modeHeader .bz2 = [0x42, 0x5A, 0x68, 0x39] ∧
    (v ≠ [] → v.take (IRCompressedField.header cf).length ≠ IRCompressedField.header cf →
      IRCompressedField._toStorage cf (.bytes v)
        = .ok (.bytes (compressModel cf.compressMode v))) ∧
    (v.take (IRCompressedField.header cf).length = IRCompressedField.header cf →
      IRCompressedField._toStorage cf (.bytes v) = .ok (.bytes v)) ∧
    (v.take (IRCompressedField.header cf).length = IRCompressedField.header cf →
      IRCompressedField._fromStorage cf (.bytes v)
        = .ok (.bytes (decompressModel cf.compressMode v))) ∧
    (v ≠ [] → v.take (IRCompressedField.header cf).length ≠ IRCompressedField.header cf →
      IRCompressedField._fromStorage cf (.bytes v) = .ok (.bytes v)) ∧
    (s ≠ "" →
      utf8Encode (String.mk (s.data.take (IRCompressedField.header cf).length))
          ≠ IRCompressedField.header cf →
      IRCompressedField._fromStorage cf (.str s) = .ok (.str s)) ∧
    IRCompressedField._fromStorage cf (.int i) = .ok (.int i) := by
  refine ⟨rfl, rfl, rfl, rfl, rfl, rfl, ?_, ?_, ?_, ?_, ?_, rfl⟩
  · intro hv hh
    simp [IRCompressedField._toStorage, isEmptyString, hv, tobytes, pyValTake,
      IRCompressedField.header, compressModel]
    intro hcontra
    exact absurd hcontra hh
  · intro hh
    have hv : v ≠ [] := by
      intro h
      subst h
      exact modeHeader_ne_nil cf.compressMode (by simpa [IRCompressedField.header] using hh.symm)
    simp only [IRCompressedField.header] at hh
    simp [IRCompressedField._toStorage, isEmptyString, hv, tobytes, pyValTake,
      IRCompressedField.header, hh]
  · intro hh
    have hv : v ≠ [] := by
      intro h
      subst h
      exact modeHeader_ne_nil cf.compressMode (by simpa [IRCompressedField.header] using hh.symm)
    simp only [IRCompressedField.header] at hh
    simp [IRCompressedField._fromStorage, isEmptyString, isStringy, hv, tobytes, pyValTake,
      IRCompressedField.header, hh, decompressModel]
  · intro hv hh
    simp only [IRCompressedField.header] at hh
    simp [IRCompressedField._fromStorage, isEmptyString, isStringy, hv, tobytes, pyValTake,
      IRCompressedField.header, hh]
  · intro hs hh
    simp only [IRCompressedField.header] at hh
    simp [IRCompressedField._fromStorage, isEmptyString, isStringy, hs, tobytes, pyValTake,
      IRCompressedField.header, hh]

/-- C2 witness: storing `b'\x01Hello World\x01'` under zlib (deflate)
mode yields the level-9 zlib compression of those bytes, and the round
trip through `_fromStorage` restores them; the empty input maps to the
empty string. -/
theorem claim_C2_compressedContract_witness :
    IRCompressedField._toStorage { name := "value", compressMode := CompressMode.zlib }
        (.bytes helloWorldBytes)
      = .ok (.bytes (compressModel CompressMode.zlib helloWorldBytes)) ∧
    IRCompressedField._fromStorage { name := "value", compressMode := CompressMode.zlib }
        (.bytes (compressModel CompressMode.zlib helloWorldBytes))
      = .ok (.bytes helloWorldBytes) ∧
    IRCompressedField._toStorage { name := "value", compressMode := CompressMode.zlib }
        (.bytes []) = .ok (.str "") :=
  ⟨(claim_C2_compressedContract { name := "value", compressMode := CompressMode.zlib }
      helloWorldBytes "" 0).2.2.2.2.2.2.1 (by decide) (by decide),
   by
    have := (claim_C2_compressedContract { name := "value", compressMode := CompressMode.zlib }
      (compressModel CompressMode.zlib helloWorldBytes) "" 0).2.2.2.2.2.2.2.2.1 (by decide)
    simpa [decompressModel, compressModel] using this,
   (claim_C2_compressedContract { name := "value", compressMode := CompressMode.zlib }
      helloWorldBytes "" 0).1⟩

/-- C4: boolean conversion — a null-ish stored value gives `irNull`;
a value whose lower-casing is `'true'` or `'1'` gives `True`; `'false'`
or `'0'` gives `False`; every other non-empty value raises a
`ValueError` at the conversion point (the function returns the error,
never a defaulted boolean). -/
theorem claim_C4_boolConversion (s : String) (v : PyVal) :
    (IRField._isNullValue v = true → IRField._convertBool v = .ok irNull) ∧
    (pyLower s = "true" ∨ pyLower s = "1" →
      IRField._convertBool (.str s) = .ok (.bool true)) ∧
    (pyLower s = "false" ∨ pyLower s = "0" →
      IRField._convertBool (.str s) = .ok (.bool false)) ∧
    (IRField._isNullValue (.str s) = false →
      pyLower s ≠ "true" → pyLower s ≠ "1" → pyLower s ≠ "false" → pyLower s ≠ "0" →
      IRField._convertBool (.str s)
        = .error "ValueError: Unexpected value for bool type") := by
  refine ⟨?_, ?_, ?_, ?_⟩
  · intro h
    simp [IRField._convertBool, h]
  · intro h
    have hse : s ≠ "" := by
      rintro rfl
      rcases h with h | h <;> simp [pyLower, String.ext_iff] at h
    have hnn : IRField._isNullValue (.str s) = false := by
      rw [isNullValue_str]
      exact beq_eq_false_iff_ne.mpr (fun hc => hse hc.symm)
    rcases h with h | h <;> simp [IRField._convertBool, hnn, h]
  · intro h
    have hse : s ≠ "" := by
      rintro rfl
      rcases h with h | h <;> simp [pyLower, String.ext_iff] at h
    have hnn : IRField._isNullValue (.str s) = false := by
      rw [isNullValue_str]
      exact beq_eq_false_iff_ne.mpr (fun hc => hse hc.symm)
    rcases h with h | h <;> simp [IRField._convertBool, hnn, h]
  · intro hnn h1 h2 h3 h4
    simp [IRField._convertBool, hnn, h1, h2, h3, h4]

/-- C4 witness: the conversion evaluated at `'TRUE'` (case-insensitive
acceptance), at the empty stored value, and at the unparsable value
`'banana'` (rejected with `ValueError`). -/
theorem claim_C4_boolConversion_witness :
    IRField._convertBool (.str "TRUE") = .ok (.bool true) ∧
    IRField._convertBool (.str "") = .ok irNull ∧
    IRField._convertBool (.str "banana")
      = .error "ValueError: Unexpected value for bool type" :=
  ⟨(claim_C4_boolConversion "TRUE" (.str "")).2.1 (Or.inl (by decide)),
   (claim_C4_boolConversion "TRUE" (.str "")).1 (by decide),
   (claim_C4_boolConversion "banana" (.str "")).2.2.2 (by decide)
     (by decide) (by decide) (by decide) (by decide)⟩

/-- C5: for a non-string declared valueType (int, bool, float), the
conversion of the designated empty stored representation (`''` or
`b''`) is `irNull`; and this is the only implicit substitution — for
every value that is not null-ish, the int conversion is exactly
`int(value)` (parse or raise, never a silent default). -/
theorem claim_C5_emptyYieldsNull (nm : String) (hi : Bool) (v : PyVal) :
    IRField.convert (IRField.init nm .tInt hi) (.str "") = .ok irNull ∧
    IRField.convert (IRField.init nm .tInt hi) (.bytes []) = .ok irNull ∧
    IRField.convert (IRField.init nm .tBool hi) (.str "") = .ok irNull ∧
    IRField.convert (IRField.init nm .tBool hi) (.bytes []) = .ok irNull ∧
    IRField.convert (IRField.init nm .tFloat hi) (.str "") = .ok irNull ∧
    IRField.convert (IRField.init nm .tFloat hi) (.bytes []) = .ok irNull ∧
    (IRField._isNullValue v = false →
      IRField.convert (IRField.init nm .tInt hi) v = pyIntCast v) := by
  refine ⟨rfl, rfl, rfl, rfl, rfl, rfl, ?_⟩
  intro h
  simp [IRField.convert, IRField.init, h]

/-- C5 witness: the int conversion evaluated at the parsable stored
value `'12'` (giving `int('12')`) and at the empty stored value
(giving `irNull`). -/
theorem claim_C5_emptyYieldsNull_witness :
    IRField.convert (IRField.init "n" .tInt false) (.str "12") = pyIntCast (.str "12") ∧
    IRField.convert (IRField.init "n" .tInt false) (.str "") = .ok irNull :=
  ⟨(claim_C5_emptyYieldsNull "n" false (.str "12")).2.2.2.2.2.2 (by decide),
   (claim_C5_emptyYieldsNull "n" false (.str "12")).1⟩

/-- C6: `toIndex(value)` equals `toStorage(value)` when the field's
`hashIndex` flag is unset, and equals the md5 hex digest of the bytes
of `toStorage(value)` when it is set. -/
theorem claim_C6_toIndexHashing (f : IRFieldData) (v : PyVal) :
    IRField.toIndex f v =
      if f.hashIndex then
        (IRField.toStorage f v).bind
          (fun ret => (tobytes ret).map (fun bs => PyVal.str (md5hexdigest bs)))
      else IRField.toStorage f v := by
  unfold IRField.toIndex IRField.isIndexHashed
  cases hh : f.hashIndex <;> cases hst : IRField.toStorage f v <;>
    simp [Except.bind, Except.map, bind, pure, Except.pure]

/-- C9: the reload link-field contract — when the resolved link
target's non-id field changed in the store and the link id did not
change, `reload(cascadeObjects=False)` reports no change for the link
field, while `reload(cascadeObjects=True)` reloads the resolved target
and reports the link as changed with the old and the new value; and a
link that is unresolved before reload remains unresolved afterwards
under either flag. -/
theorem claim_C9_reloadLinkContract (st : StoreState) (h : HolderState) (o : RefObjState)
    (k : Nat) (w : Int) :
    (h.other.fetched = true → h.other.cachedObj = some o → st.holderOtherId = h.other.pk →
      o.pk = some k → st.targetIntVal k = some w → w ≠ o.intVal →
      ("other" ∉ ((reloadHolder false st h).1.map Prod.fst)) ∧
      ("other", FieldVal.link h.other,
        FieldVal.link { h.other with cachedObj := some { o with intVal := w } })
        ∈ (reloadHolder true st h).1) ∧
    (h.other.fetched = false →
      ((reloadHolder false st h).2).other.isFetched = false ∧
      ((reloadHolder true st h).2).other.isFetched = false) := by
  constructor
  · intro hf hc hid hpk hw hne
    have hnid : ¬(h.other.pk ≠ st.holderOtherId) := by rw [hid]; simp
    constructor
    · simp only [reloadHolder, if_neg hnid, if_neg (by simp : ¬(False = true))]
      by_cases hn : st.holderName == h.name <;> simp [hn]
    · have ho' : reloadTargetFromStore st o = { o with intVal := w } := by
        simp [reloadTargetFromStore, hpk, hw]
      have hoe : ({ o with intVal := w } == o) = false := by
        apply beq_eq_false_iff_ne.mpr
        intro hcontra
        exact hne (congrArg RefObjState.intVal hcontra)
      simp only [reloadHolder, if_neg hnid, hf, hc, ho', if_pos rfl]
      by_cases hn : st.holderName == h.name <;> simp [hn, hoe]
  · intro hnf
    constructor <;>
      · unfold reloadHolder
        simp only [ForeignLinkHandle.isFetched]
        repeat' split <;> simp_all

/-- C9 witness: a holder whose resolved target (id 1, `intVal` 99) was
changed to `intVal` 5 in the store — `reload(False)` reports nothing
for the link, `reload(True)` reports the old and the new target; and a
holder with an unresolved handle stays unresolved. -/
theorem claim_C9_reloadLinkContract_witness :
    ("other" ∉ ((reloadHolder false sampleStore sampleResolvedHolder).1.map Prod.fst)) ∧
    ("other", FieldVal.link sampleResolvedHandle, FieldVal.link sampleReloadedHandle)
      ∈ (reloadHolder true sampleStore sampleResolvedHolder).1 ∧
    ((reloadHolder false sampleStore sampleUnresolvedHolder).2).other.isFetched = false :=
  ⟨((claim_C9_reloadLinkContract sampleStore sampleResolvedHolder
      { pk := some 1, intVal := 99 } 1 5).1 rfl rfl rfl rfl rfl (by decide)).1,
   ((claim_C9_reloadLinkContract sampleStore sampleResolvedHolder
      { pk := some 1, intVal := 99 } 1 5).1 rfl rfl rfl rfl rfl (by decide)).2,
   (((claim_C9_reloadLinkContract sampleStore sampleUnresolvedHolder
      { pk := some 1, intVal := 99 } 1 5).2 rfl).1)⟩
